import Mathlib

/-!
Verification of the last-value aggregator from
`opentelemetry-sdk/src/metrics/aggregators/last_value.rs`.

The shallow embedding below mirrors the Rust source:
* `Number` is opaque to the aggregator (only cloned, never computed with),
  so it is modelled as a natural number.
* `SystemTime` values are only compared with strict greater-than, so they
  are modelled as natural numbers.
* `Descriptor` is received but never inspected by any of the three
  operations (the Rust parameters are named with a leading underscore),
  so it is modelled as an opaque natural number.
* The ambient `Context` matters to the code only through
  `cx.get::<SystemTime>()`, hence it is modelled as `Option SystemTime`.
* The `Mutex<Inner>` is modelled by a `poisoned` flag on the cell together
  with the guarded `Inner` value: `lock()` fails exactly when the mutex is
  poisoned, and a failed lock leaves the state untouched.
* The `&dyn Aggregator` peer given to `merge` / `synchronized_move` is
  modelled by `DynAggregator`: the `downcast_ref::<Self>()` in the source
  succeeds exactly on the `lastValue` variant; any other concrete
  aggregator kind is the `otherKind` variant with opaque state.
* Each operation returns the Rust result value together with the
  post-states of the cells it touched (explicit state passing).
-/

namespace LastValueAgg

/-- Opaque numeric value type (`Number` in the source). -/
abbrev Number := Nat

/-- Timestamps (`std::time::SystemTime`); only ordered comparison is used. -/
abbrev SystemTime := Nat

/-- Opaque instrument descriptor; never inspected by this aggregator. -/
abbrev Descriptor := Nat

/-- The ambient context, reduced to the only datum the code queries from it:
an optional explicit timestamp (`cx.get::<std::time::SystemTime>()`). -/
abbrev Context := Option SystemTime

/-- The error cases reachable from this file. `InconsistentAggregator`
carries a debug-formatted message in Rust; the exact text of the Rust
`format!` output is abstracted into the string payload. -/
inductive MetricsError where
  | NoDataCollected
  | InconsistentAggregator (msg : String)
  | MutexPoisoned
deriving DecidableEq, Repr

/-- `LastValueData`: the value together with the timestamp of the update. -/
structure LastValueData where
  value : Number
  timestamp : SystemTime
deriving DecidableEq, Repr

/-- `Inner`: the slot guarded by the mutex; `None` means no data recorded. -/
structure Inner where
  state : Option LastValueData
deriving DecidableEq, Repr

/-- `LastValueAggregator`: the guarded slot plus the poison status of the
mutex that guards it. -/
structure LastValueAggregator where
  poisoned : Bool
  inner : Inner
deriving DecidableEq, Repr

/-- The free function `last_value()`: a fresh cell with
`Inner::default()` (empty slot) behind a healthy mutex. -/
def last_value : LastValueAggregator := ⟨false, ⟨none⟩⟩

/-- A peer passed as `&dyn Aggregator`. `downcast_ref::<LastValueAggregator>`
succeeds exactly on the `lastValue` variant; `otherKind` stands for any
other concrete aggregator kind, with an opaque tag and opaque state. -/
inductive DynAggregator where
  | lastValue (agg : LastValueAggregator)
  | otherKind (tag : Nat) (opaqueState : Nat)
deriving DecidableEq, Repr

/-- The (abstracted) message built by `format!("Expected {:?}, got: {:?}", ...)`
when the peer fails the downcast. -/
def inconsistentMsg : String := "Expected LastValueAggregator, got a different aggregator kind"

/-- `Aggregator::update` (the record operation). `now` is the externally
supplied current time (`opentelemetry_api::time::now()`), sampled when the
context carries no explicit timestamp. Returns the Rust result and the
post-state of the cell. -/
def LastValueAggregator.update (self : LastValueAggregator) (cx : Context)
    (number : Number) ( _descriptor : Descriptor) (now : SystemTime) :
    Except MetricsError Unit × LastValueAggregator :=
  if self.poisoned then (.error .MutexPoisoned, self)
  else
    match cx with
    | some timestamp => (.ok (), { self with inner := ⟨some ⟨number, timestamp⟩⟩ })
    | none => (.ok (), { self with inner := ⟨some ⟨number, now⟩⟩ })

/-- `Aggregator::synchronized_move` (the handoff operation): after the
downcast succeeds and both locks are acquired, the source executes
`other.state = inner.state.take()`, i.e. the destination slot is
overwritten with the content of the self slot and the self slot is
emptied. Returns the Rust result and the post-states of (self, other). -/
def LastValueAggregator.synchronized_move (self : LastValueAggregator)
    (other : DynAggregator) ( _descriptor : Descriptor) :
    Except MetricsError Unit × (LastValueAggregator × DynAggregator) :=
  match other with
  | .lastValue o =>
      if self.poisoned then (.error .MutexPoisoned, (self, other))
      else if o.poisoned then (.error .MutexPoisoned, (self, other))
      else
        (.ok (), ({ self with inner := ⟨none⟩ },
          .lastValue { o with inner := ⟨self.inner.state⟩ }))
  | .otherKind _ _ => (.error (.InconsistentAggregator inconsistentMsg), (self, other))

/-- `Aggregator::merge` (the fold operation): after the downcast succeeds
and both locks are acquired, the source matches on the pair of slots:
take the peer state when both hold data and the peer timestamp is strictly
greater, take it when the self slot is empty and the peer holds data, and
do nothing otherwise. Returns the Rust result and the post-states of
(self, other). -/
def LastValueAggregator.merge (self : LastValueAggregator)
    (other : DynAggregator) ( _descriptor : Descriptor) :
    Except MetricsError Unit × (LastValueAggregator × DynAggregator) :=
  match other with
  | .lastValue o =>
      if self.poisoned then (.error .MutexPoisoned, (self, other))
      else if o.poisoned then (.error .MutexPoisoned, (self, other))
      else
        match self.inner.state, o.inner.state with
        | some checkpoint, some other_checkpoint =>
            if other_checkpoint.timestamp > checkpoint.timestamp then
              (.ok (), ({ self with inner := ⟨o.inner.state⟩ },
                .lastValue { o with inner := ⟨none⟩ }))
            else (.ok (), (self, other))
        | none, some _ =>
            (.ok (), ({ self with inner := ⟨o.inner.state⟩ },
              .lastValue { o with inner := ⟨none⟩ }))
        | _, _ => (.ok (), (self, other))
  | .otherKind _ _ => (.error (.InconsistentAggregator inconsistentMsg), (self, other))

/-- `LastValue::last_value` (the read operation): returns the held pair or
`NoDataCollected`, and the post-state of the cell (the source only reads
under the lock, so the state component equals the input cell). -/
def LastValueAggregator.last_value (self : LastValueAggregator) :
    Except MetricsError (Number × SystemTime) × LastValueAggregator :=
  if self.poisoned then (.error .MutexPoisoned, self)
  else
    match self.inner.state with
    | some checkpoint => (.ok (checkpoint.value, checkpoint.timestamp), self)
    | none => (.error .NoDataCollected, self)

/-- Modelled from the spec: the fold policy stated in the specification,
as a function on the two slots (self slot, source slot), returning the
resulting (self slot, source slot). Used to compare the implementation of
`merge` against the specified policy. -/
def foldSpecPolicy (selfState sourceState : Option LastValueData) :
    Option LastValueData × Option LastValueData :=
  match selfState, sourceState with
  | none, some p => (some p, none)
  | some s, some p =>
      if p.timestamp > s.timestamp then (some p, none) else (some s, some p)
  | _, none => (selfState, sourceState)

/-- The identities of the mutexes acquired by `merge`, in acquisition
order: the source runs `self.inner.lock()` and then, inside `and_then`,
`other.inner.lock()`, so the self lock is always acquired first,
independently of any ordering between the two cell identities. -/
def merge_lock_order (selfId otherId : Nat) : List Nat := [selfId, otherId]

/-- The identities of the mutexes acquired by `synchronized_move`, in
acquisition order: as in `merge`, `self.inner.lock()` precedes
`other.inner.lock()` unconditionally. -/
def synchronized_move_lock_order (selfId otherId : Nat) : List Nat := [selfId, otherId]

/-- Claim C1, counterexample: with the source Empty and the destination
Holding the point (value 1, timestamp 1), handoff does not leave the
destination unchanged — the destination slot is cleared. -/
theorem C1_counterexample :
    ¬ ((LastValueAggregator.synchronized_move ⟨false, ⟨none⟩⟩
        (.lastValue ⟨false, ⟨some ⟨1, 1⟩⟩⟩) 0).2.2 =
      .lastValue ⟨false, ⟨some ⟨1, 1⟩⟩⟩) := by
  decide

/-- Claim C1, amended: handoff invoked on an Empty, non-poisoned source
against a same-kind, non-poisoned destination succeeds, leaves the source
Empty, and overwrites the destination slot with Empty as well — so the
destination is unchanged only when it was already Empty, and a destination
that held a DataPoint loses it. -/
theorem C1_amended_handoff_empty_source (src o : LastValueAggregator)
    (d : Descriptor) (hs : src.poisoned = false) (ho : o.poisoned = false)
    (he : src.inner.state = none) :
    src.synchronized_move (.lastValue o) d =
      (.ok (), ({ src with inner := ⟨none⟩ }, .lastValue { o with inner := ⟨none⟩ })) := by
  simp [LastValueAggregator.synchronized_move, hs, ho, he]

/-- Witness for the amended claim C1 at the concrete input of the
counterexample: the destination that held (1, 1) ends up Empty. -/
theorem C1_amended_witness :
    LastValueAggregator.synchronized_move ⟨false, ⟨none⟩⟩
        (.lastValue ⟨false, ⟨some ⟨1, 1⟩⟩⟩) 0 =
      (.ok (), (⟨false, ⟨none⟩⟩, .lastValue ⟨false, ⟨none⟩⟩)) :=
  C1_amended_handoff_empty_source ⟨false, ⟨none⟩⟩ ⟨false, ⟨some ⟨1, 1⟩⟩⟩ 0 rfl rfl rfl

/-- Claim C2: fold between two non-poisoned last-value cells succeeds and
transforms the two slots exactly as the policy written in the spec
(`foldSpecPolicy`) prescribes: strictly newer source wins, an empty self
takes the source point, an empty source changes nothing, and ties keep
both cells unchanged. -/
theorem C2_fold_matches_policy (self o : LastValueAggregator) (d : Descriptor)
    (hs : self.poisoned = false) (ho : o.poisoned = false) :
    self.merge (.lastValue o) d =
      (.ok (), ({ self with inner := ⟨(foldSpecPolicy self.inner.state o.inner.state).1⟩ },
        .lastValue { o with inner := ⟨(foldSpecPolicy self.inner.state o.inner.state).2⟩ })) := by
  rcases self with ⟨sp, ⟨ss⟩⟩
  rcases o with ⟨op, ⟨os⟩⟩
  simp only [LastValueAggregator.poisoned] at hs ho
  subst hs
  subst ho
  rcases ss with _ | p <;> rcases os with _ | q <;>
    simp [LastValueAggregator.merge, foldSpecPolicy]
  split <;> simp

/-- Witness for claim C2: fold of self (3, t=100) with source (7, t=200)
makes self hold (7, 200) and empties the source. -/
theorem C2_fold_witness :
    LastValueAggregator.merge ⟨false, ⟨some ⟨3, 100⟩⟩⟩
        (.lastValue ⟨false, ⟨some ⟨7, 200⟩⟩⟩) 0 =
      (.ok (), (⟨false, ⟨some ⟨7, 200⟩⟩⟩, .lastValue ⟨false, ⟨none⟩⟩)) :=
  C2_fold_matches_policy ⟨false, ⟨some ⟨3, 100⟩⟩⟩ ⟨false, ⟨some ⟨7, 200⟩⟩⟩ 0 rfl rfl

/-- Claim C3: handoff from a non-poisoned source Holding a point into an
Empty, non-poisoned, same-kind destination succeeds, makes the destination
Hold exactly that point, and leaves the source Empty. -/
theorem C3_handoff_moves_point (src o : LastValueAggregator)
    (p : LastValueData) (d : Descriptor)
    (hs : src.poisoned = false) (ho : o.poisoned = false)
    (hp : src.inner.state = some p) (he : o.inner.state = none) :
    src.synchronized_move (.lastValue o) d =
      (.ok (), ({ src with inner := ⟨none⟩ }, .lastValue { o with inner := ⟨some p⟩ })) := by
  simp [LastValueAggregator.synchronized_move, hs, ho, hp]

/-- Witness for claim C3 at the concrete input of the spec example:
handoff of (9, t=1) into an empty destination. -/
theorem C3_handoff_witness :
    LastValueAggregator.synchronized_move ⟨false, ⟨some ⟨9, 1⟩⟩⟩
        (.lastValue ⟨false, ⟨none⟩⟩) 0 =
      (.ok (), (⟨false, ⟨none⟩⟩, .lastValue ⟨false, ⟨some ⟨9, 1⟩⟩⟩)) :=
  C3_handoff_moves_point ⟨false, ⟨some ⟨9, 1⟩⟩⟩ ⟨false, ⟨none⟩⟩ ⟨9, 1⟩ 0 rfl rfl rfl rfl

/-- Claim C4: when the peer is of a different concrete aggregator kind,
both fold and handoff return the InconsistentAggregator error and leave
the states of both sides exactly as they were, for every starting state of
the last-value cell and of the peer. -/
theorem C4_kind_mismatch_noop (self : LastValueAggregator) (t s : Nat)
    (d : Descriptor) :
    self.merge (.otherKind t s) d =
      (.error (.InconsistentAggregator inconsistentMsg), (self, .otherKind t s))
    ∧ self.synchronized_move (.otherKind t s) d =
      (.error (.InconsistentAggregator inconsistentMsg), (self, .otherKind t s)) :=
  ⟨rfl, rfl⟩

/-- Claim C5: recording value v with an explicit timestamp t in the
context and then reading returns Ok (v, t), whatever the prior slot
content was. -/
theorem C5_record_then_read (self : LastValueAggregator) (v : Number)
    (t : SystemTime) (d : Descriptor) (now : SystemTime)
    (h : self.poisoned = false) :
    ((self.update (some t) v d now).2.last_value).1 = .ok (v, t) := by
  simp [LastValueAggregator.update, LastValueAggregator.last_value, h]

/-- Witness for claim C5: recording (5, t=42) over a cell that already
held (0, 0), then reading, yields Ok (5, 42). -/
theorem C5_record_then_read_witness :
    ((LastValueAggregator.update ⟨false, ⟨some ⟨0, 0⟩⟩⟩ (some 42) 5 0 99).2.last_value).1 =
      .ok (5, 42) :=
  C5_record_then_read ⟨false, ⟨some ⟨0, 0⟩⟩⟩ 5 42 0 99 rfl

/-- Claim C6: on a non-poisoned cell, read leaves the cell state untouched,
returns the held pair when the slot Holds a point, fails with
NoDataCollected exactly when the slot is Empty, and in particular fails
with NoDataCollected on a freshly constructed cell. -/
theorem C6_read_behavior (self : LastValueAggregator)
    (h : self.poisoned = false) :
    (self.last_value).2 = self
    ∧ (∀ p, self.inner.state = some p →
        (self.last_value).1 = .ok (p.value, p.timestamp))
    ∧ ((self.last_value).1 = .error .NoDataCollected ↔ self.inner.state = none)
    ∧ (LastValueAggregator.last_value last_value).1 = .error .NoDataCollected := by
  refine ⟨?_, ?_, ?_, rfl⟩ <;>
    cases hst : self.inner.state <;>
      simp [LastValueAggregator.last_value, h, hst]

/-- Witness for claim C6: on the cell holding (5, 10), read returns
Ok (5, 10) and the post-state equals the input cell. -/
theorem C6_read_witness :
    (LastValueAggregator.last_value ⟨false, ⟨some ⟨5, 10⟩⟩⟩).1 = .ok (5, 10)
    ∧ (LastValueAggregator.last_value ⟨false, ⟨some ⟨5, 10⟩⟩⟩).2 = ⟨false, ⟨some ⟨5, 10⟩⟩⟩ := by
  have h := C6_read_behavior ⟨false, ⟨some ⟨5, 10⟩⟩⟩ rfl
  exact ⟨h.2.1 ⟨5, 10⟩ rfl, h.1⟩

/-- Claim C7: on a healthy lock, record unconditionally overwrites the
slot with the new value and the resolved timestamp (the explicit one when
the context carries it, otherwise the sampled current time), ending in the
Holding state; on a poisoned lock, record fails, propagates the error, and
changes nothing. -/
theorem C7_record_overwrites (self : LastValueAggregator) (cx : Context)
    (v : Number) (d : Descriptor) (now : SystemTime) :
    (self.poisoned = false →
      self.update cx v d now = (.ok (), { self with inner := ⟨some ⟨v, cx.getD now⟩⟩ }))
    ∧ (self.poisoned = true →
      self.update cx v d now = (.error .MutexPoisoned, self)) := by
  constructor
  · intro h
    cases cx <;> simp [LastValueAggregator.update, h]
  · intro h
    simp [LastValueAggregator.update, h]

/-- Witness for claim C7: a healthy cell holding (1, 2) is overwritten with
(7, 99) using the sampled time 99 when the context has no timestamp, and a
poisoned cell propagates the lock error unchanged. -/
theorem C7_record_witness :
    LastValueAggregator.update ⟨false, ⟨some ⟨1, 2⟩⟩⟩ none 7 0 99 =
      (.ok (), ⟨false, ⟨some ⟨7, 99⟩⟩⟩)
    ∧ LastValueAggregator.update ⟨true, ⟨none⟩⟩ (some 5) 7 0 99 =
      (.error .MutexPoisoned, ⟨true, ⟨none⟩⟩) :=
  ⟨(C7_record_overwrites ⟨false, ⟨some ⟨1, 2⟩⟩⟩ none 7 0 99).1 rfl,
    (C7_record_overwrites ⟨true, ⟨none⟩⟩ (some 5) 7 0 99).2 rfl⟩

/-- Claim C8: handoff performs no timestamp comparison — whenever both
same-kind, non-poisoned cells Hold a point, the destination takes the
source point and the source is emptied, for every pair of held points,
including when the destination timestamp is strictly greater. -/
theorem C8_handoff_ignores_timestamps (src o : LastValueAggregator)
    (p q : LastValueData) (d : Descriptor)
    (hs : src.poisoned = false) (ho : o.poisoned = false)
    (hp : src.inner.state = some p) (hq : o.inner.state = some q) :
    src.synchronized_move (.lastValue o) d =
      (.ok (), ({ src with inner := ⟨none⟩ }, .lastValue { o with inner := ⟨some p⟩ })) := by
  simp [LastValueAggregator.synchronized_move, hs, ho, hp]

/-- Witness for claim C8: the destination holds (5, t=100), strictly newer
than the source point (9, t=1), yet handoff replaces it with (9, 1) and
empties the source. -/
theorem C8_handoff_witness :
    (1 : Nat) < 100
    ∧ LastValueAggregator.synchronized_move ⟨false, ⟨some ⟨9, 1⟩⟩⟩
        (.lastValue ⟨false, ⟨some ⟨5, 100⟩⟩⟩) 0 =
      (.ok (), (⟨false, ⟨none⟩⟩, .lastValue ⟨false, ⟨some ⟨9, 1⟩⟩⟩)) :=
  ⟨by decide,
    C8_handoff_ignores_timestamps ⟨false, ⟨some ⟨9, 1⟩⟩⟩ ⟨false, ⟨some ⟨5, 100⟩⟩⟩
      ⟨9, 1⟩ ⟨5, 100⟩ 0 rfl rfl rfl rfl⟩

/-- Claim C9: the descriptor argument is irrelevant — record, fold and
handoff return identical results and identical post-states for any two
descriptors, on every starting state and every peer; kind compatibility is
decided only by the peer variant. -/
theorem C9_descriptor_irrelevant (self : LastValueAggregator) (cx : Context)
    (v : Number) (now : SystemTime) (other : DynAggregator)
    (d1 d2 : Descriptor) :
    self.update cx v d1 now = self.update cx v d2 now
    ∧ self.merge other d1 = self.merge other d2
    ∧ self.synchronized_move other d1 = self.synchronized_move other d2 :=
  ⟨rfl, rfl, rfl⟩

/-- Claim C10, counterexample: with self identity 1 and peer identity 0,
neither fold nor handoff acquires the lower-ordered lock first — both
acquire the self lock (identity 1) first. -/
theorem C10_counterexample :
    ¬ ((merge_lock_order 1 0).head? = some (min 1 0)
      ∧ (synchronized_move_lock_order 1 0).head? = some (min 1 0)) := by
  decide

/-- Claim C10, amended: fold and handoff acquire the self lock first and
the peer lock second, regardless of any total order on cell identities, so
symmetric concurrent calls acquire the two locks in opposite orders. -/
theorem C10_amended_lock_order (selfId otherId : Nat) :
    merge_lock_order selfId otherId = [selfId, otherId]
    ∧ synchronized_move_lock_order selfId otherId = [selfId, otherId] :=
  ⟨rfl, rfl⟩

end LastValueAgg
